import Mathlib

/-!
Shallow embedding of the Olian Enterprise LLM backend (Python/FastAPI).

The route handlers are translated from the files
backend-auth-routes.py, backend-chat-routes.py and backend-main.py.
The service layer (app.services.chat_service.ChatService,
app.services.auth_service.AuthService) and the security core
(app.core.security) are referenced by the routes but their bodies are not
in the repository excerpt; those definitions are modelled from the spec
and carry a doc comment saying so.

Timestamps are abstract clock ticks (Nat, thought of as minutes).
Float-valued fields (processing_time) are embedded as rationals; no
arithmetic is ever performed on them, they only flow through.
-/

/-- JSON-like values stored in free-form metadata maps. -/
inductive JValue where
  | jbool : Bool → JValue
  | jstr : String → JValue
  | jnum : Int → JValue
  deriving DecidableEq, Repr

/-- A JSON object: association list of string keys to values. -/
abbrev JObject := List (String × JValue)

/-- An HTTP error raised by a route: status code, detail text, extra headers. -/
structure HTTPException where
  status_code : Nat
  detail : String
  headers : List (String × String)
  deriving DecidableEq, Repr

/-- User row (backend-models.py, class User). -/
structure User where
  id : Nat
  username : String
  email : String
  hashed_password : String
  full_name : Option String
  role : String
  is_active : Bool
  last_login : Option Nat
  created_at : Nat
  updated_at : Option Nat
  organization_id : Nat
  preferred_model : String
  ui_theme : String
  deriving DecidableEq, Repr

/-- Conversation row (backend-models.py, class Conversation). -/
structure Conversation where
  id : Nat
  title : String
  user_id : Nat
  organization_id : Nat
  model_used : String
  is_active : Bool
  created_at : Nat
  updated_at : Option Nat
  deriving DecidableEq, Repr

/-- Message row (backend-models.py, class Message). -/
structure Msg where
  id : Nat
  conversation_id : Nat
  user_id : Nat
  content : String
  message_type : String
  model_used : Option String
  token_count : Nat
  processing_time : Rat
  metadata : JObject
  created_at : Nat
  deriving DecidableEq, Repr

/-- The relational store visible to the routes under verification, plus the
auto-increment counters and the current server clock (func.now). -/
structure DB where
  users : List User
  conversations : List Conversation
  messages : List Msg
  next_user_id : Nat
  next_message_id : Nat
  clock : Nat
  deriving DecidableEq, Repr

/-- Inbound chat message schema (backend-schemas.py, ChatMessage). -/
structure ChatMessage where
  content : String
  model : Option String
  deriving DecidableEq, Repr

/-- Normalized result of the LLM proxy service generate_response call. -/
structure LLMResult where
  content : String
  model : String
  token_count : Nat
  processing_time : Rat
  metadata : JObject
  deriving DecidableEq, Repr

/-- Chat turn response schema (backend-schemas.py, ChatResponse). -/
structure ChatResponse where
  conversation_id : Nat
  message_id : Nat
  content : String
  model_used : String
  token_count : Nat
  processing_time : Rat
  metadata : JObject
  deriving DecidableEq, Repr

/-- Message projection schema (backend-schemas.py, MessageResponse). -/
structure MessageResponse where
  id : Nat
  content : String
  message_type : String
  model_used : Option String
  token_count : Nat
  processing_time : Rat
  created_at : Nat
  metadata : JObject
  deriving DecidableEq, Repr

/-- Conversation projection schema (backend-schemas.py, ConversationResponse). -/
structure ConversationResponse where
  id : Nat
  title : String
  model_used : String
  created_at : Nat
  updated_at : Option Nat
  message_count : Nat
  messages : Option (List MessageResponse)
  deriving DecidableEq, Repr

/-- Registration request schema (backend-schemas.py, UserRegister). -/
structure UserRegister where
  username : String
  email : String
  password : String
  full_name : Option String
  organization_id : Nat
  deriving DecidableEq, Repr

/-- User profile response schema (backend-schemas.py, UserResponse). -/
structure UserResponse where
  id : Nat
  username : String
  email : String
  full_name : Option String
  role : String
  organization_id : Nat
  is_active : Bool
  created_at : Nat
  last_login : Option Nat
  deriving DecidableEq, Repr

/-- The user dict embedded in the login response body (backend-auth-routes.py,
login returns the keys id, username, email, full_name, role, organization_id). -/
structure LoginUserInfo where
  id : Nat
  username : String
  email : String
  full_name : Option String
  role : String
  organization_id : Nat
  deriving DecidableEq, Repr

/-- Decoded bearer-token payload: sub (username), user_id, org_id and the
expiry instant (issue time plus lifetime, in clock ticks). -/
structure TokenPayload where
  sub : String
  user_id : Nat
  org_id : Nat
  exp : Nat
  deriving DecidableEq, Repr

/-- A signed token: payload plus a signature over it. -/
structure SignedToken where
  payload : TokenPayload
  signature : String
  deriving DecidableEq, Repr

/-- Token response schema (backend-schemas.py, Token). -/
structure Token where
  access_token : SignedToken
  token_type : String
  user : Option LoginUserInfo
  deriving DecidableEq, Repr

/-- Health probe response body (backend-main.py, health_check). -/
structure HealthResponse where
  status : String
  service : String
  version : String
  deriving DecidableEq, Repr

/-- Modelled from the spec: the one-way salted password hash of the security
core (app.core.security, not in the excerpt). The concrete tagging scheme is a
stand-in; the contract used by the proofs is only that verification compares a
candidate against the stored hash. -/
def hash_password (plain : String) : String :=
  "$hash$" ++ plain

/-- Modelled from the spec: password verification of the security core
(app.core.security.verify_password, not in the excerpt) — compares a plaintext
candidate against a stored hash without reconstructing the plaintext. -/
def verify_password (plain hashed : String) : Bool :=
  hash_password plain == hashed

/-- Signature of a token payload under a secret signing key. Stand-in for the
HMAC of the JWT library used by the security core. -/
def sign (secret : String) (p : TokenPayload) : String :=
  secret ++ "/" ++ p.sub ++ "/" ++ toString p.user_id ++ "/" ++
    toString p.org_id ++ "/" ++ toString p.exp

/-- Modelled from the spec: token issuance of the security core
(app.core.security.create_access_token, not in the excerpt) — produces a
signed, time-limited bearer token embedding the subject username, user id and
organization id, expiring expires_delta ticks after now. -/
def create_access_token (secret sub : String) (user_id org_id now expires_delta : Nat) :
    SignedToken :=
  let p : TokenPayload := ⟨sub, user_id, org_id, now + expires_delta⟩
  ⟨p, sign secret p⟩

namespace AuthService

/-- Modelled from the spec: AuthService.get_user_by_username (service body not
in the excerpt) — looks a user up by the unique username, empty result when
absent. -/
def get_user_by_username (db : DB) (username : String) : Option User :=
  db.users.find? (fun u => u.username == username)

/-- Modelled from the spec: AuthService.get_user_by_email (service body not in
the excerpt) — looks a user up by the unique email, empty result when absent. -/
def get_user_by_email (db : DB) (email : String) : Option User :=
  db.users.find? (fun u => u.email == email)

/-- Modelled from the spec: AuthService.authenticate_user (service body not in
the excerpt) — verifies the username exists and the password matches, returning
no user on any mismatch and never distinguishing the two failure causes. The
active-account check is performed by the login route itself, which has a
dedicated inactive-user branch (backend-auth-routes.py lines 35-39). -/
def authenticate_user (db : DB) (username password : String) : Option User :=
  match get_user_by_username db username with
  | none => none
  | some user => if verify_password password user.hashed_password then some user else none

/-- Modelled from the spec: AuthService.create_user (service body not in the
excerpt) — hashes the password before storage, assigns the given organization,
applies the default role user and the profile defaults of the data model. -/
def create_user (db : DB) (data : UserRegister) : DB × User :=
  let u : User :=
    ⟨db.next_user_id, data.username, data.email, hash_password data.password,
      data.full_name, "user", true, none, db.clock, none,
      data.organization_id, "gpt-4", "light"⟩
  ({ db with users := db.users ++ [u], next_user_id := db.next_user_id + 1 }, u)

/-- Modelled from the spec: AuthService.update_last_login (service body not in
the excerpt) — sets the last-login timestamp of the given user to now. -/
def update_last_login (db : DB) (user_id : Nat) : DB :=
  { db with
    users := db.users.map (fun u =>
      if u.id == user_id then { u with last_login := some db.clock } else u) }

end AuthService

namespace ChatService

/-- Modelled from the spec: ChatService.get_conversation_by_id (service body
not in the excerpt) — fetches one conversation by id scoped to the requesting
user, returning nothing if absent or owned by another user; this is the sole
authorization check for conversation access. -/
def get_conversation_by_id (db : DB) (conversation_id user_id : Nat) : Option Conversation :=
  db.conversations.find? (fun c => c.id == conversation_id && c.user_id == user_id)

/-- Modelled from the spec: ChatService.get_user_conversations (service body
not in the excerpt) — lists the conversations of a user with limit/offset
pagination. -/
def get_user_conversations (db : DB) (user_id limit offset : Nat) : List Conversation :=
  ((db.conversations.filter (fun c => c.user_id == user_id)).drop offset).take limit

/-- Modelled from the spec: ChatService.create_message (service body not in
the excerpt) — appends a message row to a conversation with the given type and
optional model/token/processing-time/metadata fields; the storage layer
assigns the id and the creation timestamp. -/
def create_message (db : DB) (conversation_id user_id : Nat) (content message_type : String)
    (model_used : Option String) (token_count : Nat) (processing_time : Rat)
    (metadata : JObject) : DB × Msg :=
  let m : Msg :=
    ⟨db.next_message_id, conversation_id, user_id, content, message_type,
      model_used, token_count, processing_time, metadata, db.clock⟩
  ({ db with messages := db.messages ++ [m], next_message_id := db.next_message_id + 1 }, m)

/-- Modelled from the spec: ChatService.update_conversation_timestamp (service
body not in the excerpt) — refreshes the updated_at stamp of a conversation to
now. -/
def update_conversation_timestamp (db : DB) (conversation_id : Nat) : DB :=
  { db with
    conversations := db.conversations.map (fun c =>
      if c.id == conversation_id then { c with updated_at := some db.clock } else c) }

/-- Modelled from the spec: ChatService.update_conversation_title (service
body not in the excerpt) — stores the new title; the route has already
validated it against emptiness before invoking this. -/
def update_conversation_title (db : DB) (conversation_id : Nat) (title : String) : DB :=
  { db with
    conversations := db.conversations.map (fun c =>
      if c.id == conversation_id then { c with title := title } else c) }

/-- Modelled from the spec: ChatService.delete_conversation (service body not
in the excerpt) — deletes the conversation; the delete cascades to its
messages (delete-orphan semantics of the data model). -/
def delete_conversation (db : DB) (conversation_id : Nat) : DB :=
  { db with
    conversations := db.conversations.filter (fun c => !(c.id == conversation_id)),
    messages := db.messages.filter (fun m => !(m.conversation_id == conversation_id)) }

/-- Modelled from the spec: ChatService.get_conversation_messages (service
body not in the excerpt) — lists the messages of a conversation with
limit/offset pagination. -/
def get_conversation_messages (db : DB) (conversation_id limit offset : Nat) : List Msg :=
  ((db.messages.filter (fun m => m.conversation_id == conversation_id)).drop offset).take limit

end ChatService

/-- Embedding of the Python str.strip method: removes leading and trailing
whitespace characters. Stated structurally over the character list so that it
evaluates in the kernel. -/
def strip (s : String) : String :=
  String.mk (((s.data.dropWhile Char.isWhitespace).reverse.dropWhile
    Char.isWhitespace).reverse)

/-- Projection of a stored message into its response schema, as inlined in
the chat routes (backend-chat-routes.py lines 107-116 and 302-311). -/
def messageResponseOf (m : Msg) : MessageResponse :=
  ⟨m.id, m.content, m.message_type, m.model_used, m.token_count,
    m.processing_time, m.created_at, m.metadata⟩

/-- Translated from backend-auth-routes.py, login (lines 18-61): authenticate,
reject a missing match with 401 plus a Bearer challenge, reject an inactive
user with 400, otherwise issue a 30-minute token, record the last login and
return the token with the embedded profile dict. -/
def login (db : DB) (username password secret : String) : DB × Except HTTPException Token :=
  match AuthService.authenticate_user db username password with
  | none =>
      (db, Except.error
        ⟨401, "Incorrect username or password", [("WWW-Authenticate", "Bearer")]⟩)
  | some user =>
      if !user.is_active then
        (db, Except.error ⟨400, "Inactive user", []⟩)
      else
        let access_token :=
          create_access_token secret user.username user.id user.organization_id db.clock 30
        let db1 := AuthService.update_last_login db user.id
        (db1, Except.ok
          ⟨access_token, "bearer",
            some ⟨user.id, user.username, user.email, user.full_name, user.role,
              user.organization_id⟩⟩)

/-- Translated from backend-auth-routes.py, register (lines 64-98): reject a
duplicate username, then a duplicate email, each with 400, before creating the
user and returning its profile projection. -/
def register (db : DB) (user_data : UserRegister) : DB × Except HTTPException UserResponse :=
  if (AuthService.get_user_by_username db user_data.username).isSome then
    (db, Except.error ⟨400, "Username already registered", []⟩)
  else if (AuthService.get_user_by_email db user_data.email).isSome then
    (db, Except.error ⟨400, "Email already registered", []⟩)
  else
    let r := AuthService.create_user db user_data
    (r.1, Except.ok
      ⟨r.2.id, r.2.username, r.2.email, r.2.full_name, r.2.role,
        r.2.organization_id, r.2.is_active, r.2.created_at, none⟩)

/-- Translated from backend-auth-routes.py, refresh_token (lines 119-133):
re-issues a fresh 30-minute token for the authenticated caller. -/
def refresh_token (current_user : User) (secret : String) (now : Nat) :
    Except HTTPException Token :=
  Except.ok
    ⟨create_access_token secret current_user.username current_user.id
        current_user.organization_id now 30,
      "bearer", none⟩

/-- Modelled from the spec: current-user resolution of the security core
(app.core.security.get_current_user, not in the excerpt) — verifies signature
and expiry, extracts the subject and resolves it to a live, active user
record; fails with 401 plus a Bearer challenge on a bad signature, an expired
token or an unresolvable subject. A token is expired once the clock has
reached its exp instant. -/
def get_current_user (secret : String) (db : DB) (token : SignedToken) (now : Nat) :
    Except HTTPException User :=
  if token.signature != sign secret token.payload then
    Except.error ⟨401, "Could not validate credentials", [("WWW-Authenticate", "Bearer")]⟩
  else if token.payload.exp ≤ now then
    Except.error ⟨401, "Could not validate credentials", [("WWW-Authenticate", "Bearer")]⟩
  else
    match AuthService.get_user_by_username db token.payload.sub with
    | none =>
        Except.error ⟨401, "Could not validate credentials", [("WWW-Authenticate", "Bearer")]⟩
    | some user =>
        if user.is_active then Except.ok user
        else Except.error ⟨401, "Could not validate credentials", [("WWW-Authenticate", "Bearer")]⟩

/-- Translated from backend-chat-routes.py, get_conversation (lines 78-119):
404 when the scoped lookup is empty, otherwise the full projection with the
embedded ordered message list. -/
def get_conversation (db : DB) (conversation_id : Nat) (current_user : User) :
    Except HTTPException ConversationResponse :=
  match ChatService.get_conversation_by_id db conversation_id current_user.id with
  | none => Except.error ⟨404, "Conversation not found", []⟩
  | some conversation =>
      let msgs := db.messages.filter (fun m => m.conversation_id == conversation.id)
      Except.ok
        ⟨conversation.id, conversation.title, conversation.model_used,
          conversation.created_at, conversation.updated_at, msgs.length,
          some (msgs.map messageResponseOf)⟩

/-- Translated from backend-chat-routes.py, get_user_conversations (lines
48-75): lists the caller's conversations; the query parameters limit and
offset default to 50 and 0 when omitted (modelled by the none case). -/
def get_user_conversations (db : DB) (current_user : User) (limit offset : Option Nat) :
    List ConversationResponse :=
  (ChatService.get_user_conversations db current_user.id (limit.getD 50) (offset.getD 0)).map
    (fun conv =>
      ⟨conv.id, conv.title, conv.model_used, conv.created_at, conv.updated_at,
        (db.messages.filter (fun m => m.conversation_id == conv.id)).length, none⟩)

/-- Translated from backend-chat-routes.py, send_message (lines 122-207):
verify ownership (404), persist the inbound user message, then either persist
the generation result as an assistant message, refresh the conversation
timestamp and return the chat turn, or — on any generation failure e —
persist the apology assistant message flagged with error metadata and raise
500. The outcome of the external LLM call is an input of the embedding. -/
def send_message (db : DB) (conversation_id : Nat) (message : ChatMessage)
    (current_user : User) (llm : Except String LLMResult) :
    DB × Except HTTPException ChatResponse :=
  match ChatService.get_conversation_by_id db conversation_id current_user.id with
  | none => (db, Except.error ⟨404, "Conversation not found", []⟩)
  | some _conversation =>
      let r1 := ChatService.create_message db conversation_id current_user.id
        message.content "user" none 0 0 []
      match llm with
      | Except.ok ai_response =>
          let r2 := ChatService.create_message r1.1 conversation_id current_user.id
            ai_response.content "assistant" (some ai_response.model)
            ai_response.token_count ai_response.processing_time ai_response.metadata
          let db3 := ChatService.update_conversation_timestamp r2.1 conversation_id
          (db3, Except.ok
            ⟨conversation_id, r2.2.id, ai_response.content, ai_response.model,
              ai_response.token_count, ai_response.processing_time, ai_response.metadata⟩)
      | Except.error e =>
          let r2 := ChatService.create_message r1.1 conversation_id current_user.id
            ("I apologize, but I encountered an error processing your request: " ++ e)
            "assistant" none 0 0
            [("error", JValue.jbool true), ("error_message", JValue.jstr e)]
          (r2.1, Except.error ⟨500, "Failed to generate AI response", []⟩)

/-- Translated from backend-chat-routes.py, delete_conversation (lines
210-233): 404 when the scoped lookup is empty, otherwise cascade-delete and
acknowledge. -/
def delete_conversation (db : DB) (conversation_id : Nat) (current_user : User) :
    DB × Except HTTPException String :=
  match ChatService.get_conversation_by_id db conversation_id current_user.id with
  | none => (db, Except.error ⟨404, "Conversation not found", []⟩)
  | some _ =>
      (ChatService.delete_conversation db conversation_id,
        Except.ok "Conversation deleted successfully")

/-- Translated from backend-chat-routes.py, update_conversation_title (lines
236-267): 404 when the scoped lookup is empty; the new title is the title
field of the body (empty string when the key is absent) with surrounding
whitespace stripped, rejected with 400 when empty; otherwise stored. -/
def update_conversation_title (db : DB) (conversation_id : Nat)
    (title_update : Option String) (current_user : User) :
    DB × Except HTTPException String :=
  match ChatService.get_conversation_by_id db conversation_id current_user.id with
  | none => (db, Except.error ⟨404, "Conversation not found", []⟩)
  | some _ =>
      let new_title := strip (title_update.getD "")
      if new_title == "" then
        (db, Except.error ⟨400, "Title cannot be empty", []⟩)
      else
        (ChatService.update_conversation_title db conversation_id new_title,
          Except.ok "Title updated successfully")

/-- Translated from backend-chat-routes.py, get_conversation_messages (lines
270-313): 404 when the scoped lookup is empty, otherwise the paginated message
list; the query parameters limit and offset default to 100 and 0 when omitted
(modelled by the none case). -/
def get_conversation_messages (db : DB) (conversation_id : Nat) (current_user : User)
    (limit offset : Option Nat) : Except HTTPException (List MessageResponse) :=
  match ChatService.get_conversation_by_id db conversation_id current_user.id with
  | none => Except.error ⟨404, "Conversation not found", []⟩
  | some _ =>
      Except.ok
        ((ChatService.get_conversation_messages db conversation_id
            (limit.getD 100) (offset.getD 0)).map messageResponseOf)

/-- Translated from backend-main.py, health_check (lines 77-84): the route
consults nothing — no database, no cache, no credentials. The embedding takes
the availability of the database and the cache and the (unused) bearer token
as inputs to express that the response does not depend on them. -/
def health_check (_db_available _cache_available : Bool) (_bearer : Option String) :
    HealthResponse :=
  ⟨"healthy", "olian-enterprise-llm", "1.0.0"⟩

/-- Sample active user owning conversation 1, used by the concrete witnesses. -/
def aliceU : User :=
  ⟨1, "alice", "alice@example.com", hash_password "alicepw", none, "user", true,
    none, 0, none, 1, "gpt-4", "light"⟩

/-- Sample inactive user with a known password, used by the concrete witnesses. -/
def bobU : User :=
  ⟨2, "bob", "bob@example.com", hash_password "bobpw", none, "user", false,
    none, 0, none, 1, "gpt-4", "light"⟩

/-- Sample conversation owned by aliceU. -/
def convA : Conversation :=
  ⟨1, "New Conversation", 1, 1, "gpt-4", true, 0, none⟩

/-- Sample store: aliceU and bobU, conversation 1 owned by aliceU, no messages. -/
def wDB : DB :=
  ⟨[aliceU, bobU], [convA], [], 3, 1, 10⟩

/-- Sample successful generation result. -/
def okLLM : LLMResult := ⟨"hello", "gpt-4", 5, 1, []⟩

/-- Claim C1: for a send-message request on a conversation owned by the
caller, if generation fails with exception text e, the endpoint persists —
right after the persisted user message — exactly one additional
assistant-typed message whose content is the fixed apology text followed by e
and whose metadata holds error: true and error_message: e, and returns HTTP
500; in both the success and the failure case the stored message count grows
by exactly 2, never by 1. -/
theorem send_message_failure_appends_error_and_500
    (db : DB) (cid : Nat) (m : ChatMessage) (u : User) (e : String)
    (r : LLMResult) (conv : Conversation)
    (h : ChatService.get_conversation_by_id db cid u.id = some conv) :
    (send_message db cid m u (Except.error e)).1.messages =
      db.messages ++
        [⟨db.next_message_id, cid, u.id, m.content, "user", none, 0, 0, [], db.clock⟩,
         ⟨db.next_message_id + 1, cid, u.id,
           "I apologize, but I encountered an error processing your request: " ++ e,
           "assistant", none, 0, 0,
           [("error", JValue.jbool true), ("error_message", JValue.jstr e)], db.clock⟩] ∧
    (send_message db cid m u (Except.error e)).2 =
      Except.error ⟨500, "Failed to generate AI response", []⟩ ∧
    (send_message db cid m u (Except.error e)).1.messages.length =
      db.messages.length + 2 ∧
    (send_message db cid m u (Except.ok r)).1.messages.length =
      db.messages.length + 2 := by
  simp [send_message, h, ChatService.create_message,
    ChatService.update_conversation_timestamp]

/-- Concrete instantiation of the send-message failure path on the sample
store, discharging the ownership hypothesis at conversation 1 and aliceU. -/
theorem send_message_failure_appends_error_and_500_witness :
    ChatService.get_conversation_by_id wDB 1 aliceU.id = some convA ∧
    ((send_message wDB 1 ⟨"hi", none⟩ aliceU (Except.error "boom")).1.messages =
        wDB.messages ++
          [⟨wDB.next_message_id, 1, aliceU.id, "hi", "user", none, 0, 0, [], wDB.clock⟩,
           ⟨wDB.next_message_id + 1, 1, aliceU.id,
             "I apologize, but I encountered an error processing your request: " ++ "boom",
             "assistant", none, 0, 0,
             [("error", JValue.jbool true), ("error_message", JValue.jstr "boom")], wDB.clock⟩] ∧
      (send_message wDB 1 ⟨"hi", none⟩ aliceU (Except.error "boom")).2 =
        Except.error ⟨500, "Failed to generate AI response", []⟩ ∧
      (send_message wDB 1 ⟨"hi", none⟩ aliceU (Except.error "boom")).1.messages.length =
        wDB.messages.length + 2 ∧
      (send_message wDB 1 ⟨"hi", none⟩ aliceU (Except.ok okLLM)).1.messages.length =
        wDB.messages.length + 2) :=
  ⟨rfl, send_message_failure_appends_error_and_500 wDB 1 ⟨"hi", none⟩ aliceU "boom" okLLM
    convA rfl⟩

/-- Claim C10: the conversation timestamp is refreshed only when generation
succeeds — on the failure path the timestamp update is never invoked, so the
stored conversations, and in particular updated_at, are exactly as before the
request; on the success path the conversation gets updated_at set to the
current clock. -/
theorem updated_at_only_on_success
    (db : DB) (cid : Nat) (m : ChatMessage) (u : User) (conv : Conversation)
    (e : String) (r : LLMResult)
    (hconv : ChatService.get_conversation_by_id db cid u.id = some conv) :
    (send_message db cid m u (Except.error e)).1.conversations = db.conversations ∧
    (send_message db cid m u (Except.ok r)).1.conversations =
      db.conversations.map (fun c =>
        if c.id == cid then { c with updated_at := some db.clock } else c) := by
  simp [send_message, hconv, ChatService.create_message,
    ChatService.update_conversation_timestamp]

/-- Concrete instantiation of the timestamp frame property on the sample
store, discharging the ownership hypothesis at conversation 1 and aliceU. -/
theorem updated_at_only_on_success_witness :
    ChatService.get_conversation_by_id wDB 1 aliceU.id = some convA ∧
    ((send_message wDB 1 ⟨"hi", none⟩ aliceU (Except.error "boom")).1.conversations =
        wDB.conversations ∧
      (send_message wDB 1 ⟨"hi", none⟩ aliceU (Except.ok okLLM)).1.conversations =
        wDB.conversations.map (fun c =>
          if c.id == 1 then { c with updated_at := some wDB.clock } else c)) :=
  ⟨rfl, updated_at_only_on_success wDB 1 ⟨"hi", none⟩ aliceU convA "boom" okLLM rfl⟩

/-- Helper: when every stored conversation carrying the requested id belongs
to the owner oid, a requester with a different user id gets an empty scoped
lookup — the sole authorization check of the chat routes. -/
theorem get_conversation_by_id_eq_none_of_other_owner
    (db : DB) (cid uid oid : Nat) (hne : uid ≠ oid)
    (hown : ∀ c ∈ db.conversations, c.id = cid → c.user_id = oid) :
    ChatService.get_conversation_by_id db cid uid = none := by
  unfold ChatService.get_conversation_by_id
  rw [List.find?_eq_none]
  intro c hc
  simp only [Bool.and_eq_true, beq_iff_eq, not_and]
  intro hid huid
  exact hne (huid.symm.trans (hown c hc hid))

/-- Claim C2: for a requester and an owner with distinct user ids, every
conversation-scoped operation invoked by the requester on an id wholly owned
by the other user — fetch, delete, rename, list messages, send message —
fails with the same 404 NotFound response and leaves the store unchanged.
The ownership hypothesis also holds vacuously when no conversation with that
id exists at all, so the observable response is literally identical in the
owned-by-another-user case and in the nonexistent case: neither existence nor
content leaks. -/
theorem cross_user_conversation_ops_not_found
    (db : DB) (cid : Nat) (a : User) (oid : Nat)
    (hne : a.id ≠ oid)
    (hown : ∀ c ∈ db.conversations, c.id = cid → c.user_id = oid)
    (m : ChatMessage) (llm : Except String LLMResult) (t : Option String)
    (limit offset : Option Nat) :
    get_conversation db cid a = Except.error ⟨404, "Conversation not found", []⟩ ∧
    (delete_conversation db cid a).2 = Except.error ⟨404, "Conversation not found", []⟩ ∧
    (delete_conversation db cid a).1 = db ∧
    (update_conversation_title db cid t a).2 =
      Except.error ⟨404, "Conversation not found", []⟩ ∧
    (update_conversation_title db cid t a).1 = db ∧
    get_conversation_messages db cid a limit offset =
      Except.error ⟨404, "Conversation not found", []⟩ ∧
    (send_message db cid m a llm).2 = Except.error ⟨404, "Conversation not found", []⟩ ∧
    (send_message db cid m a llm).1 = db := by
  have h := get_conversation_by_id_eq_none_of_other_owner db cid a.id oid hne hown
  simp [get_conversation, delete_conversation, update_conversation_title,
    get_conversation_messages, send_message, h]

/-- Concrete instantiation of the cross-user isolation property: bobU (id 2)
requesting conversation 1 of the sample store, owned by user id 1. -/
theorem cross_user_conversation_ops_not_found_witness :
    bobU.id ≠ 1 ∧
    (get_conversation wDB 1 bobU = Except.error ⟨404, "Conversation not found", []⟩ ∧
      (delete_conversation wDB 1 bobU).2 =
        Except.error ⟨404, "Conversation not found", []⟩ ∧
      (delete_conversation wDB 1 bobU).1 = wDB ∧
      (update_conversation_title wDB 1 (some "t") bobU).2 =
        Except.error ⟨404, "Conversation not found", []⟩ ∧
      (update_conversation_title wDB 1 (some "t") bobU).1 = wDB ∧
      get_conversation_messages wDB 1 bobU none none =
        Except.error ⟨404, "Conversation not found", []⟩ ∧
      (send_message wDB 1 ⟨"hi", none⟩ bobU (Except.error "boom")).2 =
        Except.error ⟨404, "Conversation not found", []⟩ ∧
      (send_message wDB 1 ⟨"hi", none⟩ bobU (Except.error "boom")).1 = wDB) :=
  ⟨by decide,
    cross_user_conversation_ops_not_found wDB 1 bobU 1 (by decide) (by decide)
      ⟨"hi", none⟩ (Except.error "boom") (some "t") none none⟩

/-- Claim C6: a rename request on a conversation owned by the caller whose
new title is empty after stripping — the empty string or whitespace only —
fails with 400 InvalidInput and leaves the store, in particular the stored
title, unchanged. -/
theorem rename_empty_title_rejected
    (db : DB) (cid : Nat) (u : User) (conv : Conversation) (s : String)
    (hconv : ChatService.get_conversation_by_id db cid u.id = some conv)
    (hs : strip s = "") :
    (update_conversation_title db cid (some s) u).1 = db ∧
    (update_conversation_title db cid (some s) u).2 =
      Except.error ⟨400, "Title cannot be empty", []⟩ := by
  simp [update_conversation_title, hconv, hs]

/-- Concrete instantiation of the empty-title rename rejection: aliceU
renaming her conversation 1 to a whitespace-only title. -/
theorem rename_empty_title_rejected_witness :
    strip " " = "" ∧
    ((update_conversation_title wDB 1 (some " ") aliceU).1 = wDB ∧
      (update_conversation_title wDB 1 (some " ") aliceU).2 =
        Except.error ⟨400, "Title cannot be empty", []⟩) :=
  ⟨rfl, rename_empty_title_rejected wDB 1 aliceU convA " " rfl rfl⟩

/-- Claim C3: a login request carrying the correct password of a user whose
active flag is false fails with 400 InvalidInput; no token is issued and the
store — in particular the last-login timestamp — is unchanged. -/
theorem login_inactive_user_rejected
    (db : DB) (u : User) (pwd secret : String)
    (hu : AuthService.get_user_by_username db u.username = some u)
    (hp : verify_password pwd u.hashed_password = true)
    (hinact : u.is_active = false) :
    (login db u.username pwd secret).1 = db ∧
    (login db u.username pwd secret).2 = Except.error ⟨400, "Inactive user", []⟩ := by
  simp [login, AuthService.authenticate_user, hu, hp, hinact]

/-- Concrete instantiation of the inactive-login rejection: bobU is inactive
and logs in with the correct password on the sample store. -/
theorem login_inactive_user_rejected_witness :
    verify_password "bobpw" bobU.hashed_password = true ∧
    bobU.is_active = false ∧
    ((login wDB bobU.username "bobpw" "key").1 = wDB ∧
      (login wDB bobU.username "bobpw" "key").2 =
        Except.error ⟨400, "Inactive user", []⟩) :=
  ⟨by decide, rfl,
    login_inactive_user_rejected wDB bobU "bobpw" "key" (by decide) (by decide) rfl⟩

/-- Claim C7: a login that does not authenticate yields the same 401
Unauthenticated response — the same detail text and the same Bearer challenge
header — whether the username does not exist or the username exists but the
password is wrong; the two runs leave the store unchanged and are
indistinguishable to the caller. -/
theorem login_indistinguishable_on_auth_failure
    (db : DB) (u1 p1 u2 p2 s1 s2 : String) (w : User)
    (h1 : AuthService.get_user_by_username db u1 = none)
    (h2 : AuthService.get_user_by_username db u2 = some w)
    (h3 : verify_password p2 w.hashed_password = false) :
    (login db u1 p1 s1).2 =
      Except.error
        ⟨401, "Incorrect username or password", [("WWW-Authenticate", "Bearer")]⟩ ∧
    (login db u2 p2 s2).2 =
      Except.error
        ⟨401, "Incorrect username or password", [("WWW-Authenticate", "Bearer")]⟩ ∧
    (login db u1 p1 s1).2 = (login db u2 p2 s2).2 ∧
    (login db u1 p1 s1).1 = db ∧ (login db u2 p2 s2).1 = db := by
  simp [login, AuthService.authenticate_user, h1, h2, h3]

/-- Concrete instantiation of the login indistinguishability: the username
ghost does not exist in the sample store, while alice exists but is offered a
wrong password; both runs answer with the same 401 response. -/
theorem login_indistinguishable_on_auth_failure_witness :
    AuthService.get_user_by_username wDB "ghost" = none ∧
    verify_password "wrong" aliceU.hashed_password = false ∧
    ((login wDB "ghost" "x" "key").2 =
        Except.error
          ⟨401, "Incorrect username or password", [("WWW-Authenticate", "Bearer")]⟩ ∧
      (login wDB "alice" "wrong" "key").2 =
        Except.error
          ⟨401, "Incorrect username or password", [("WWW-Authenticate", "Bearer")]⟩ ∧
      (login wDB "ghost" "x" "key").2 = (login wDB "alice" "wrong" "key").2 ∧
      (login wDB "ghost" "x" "key").1 = wDB ∧ (login wDB "alice" "wrong" "key").1 = wDB) :=
  ⟨by decide, by decide,
    login_indistinguishable_on_auth_failure wDB "ghost" "x" "alice" "wrong" "key" "key"
      aliceU (by decide) (by decide) (by decide)⟩

/-- Claim C4: a registration request whose username or whose email equals that
of any already-stored user — regardless of every other field — fails with a
400 Conflict before any user is created, leaving the stored users unchanged. -/
theorem register_duplicate_conflict
    (db : DB) (data : UserRegister) (w : User)
    (hw : w ∈ db.users)
    (hdup : w.username = data.username ∨ w.email = data.email) :
    (register db data).1 = db ∧
    ((register db data).2 = Except.error ⟨400, "Username already registered", []⟩ ∨
      (register db data).2 = Except.error ⟨400, "Email already registered", []⟩) := by
  unfold register
  by_cases hu : (AuthService.get_user_by_username db data.username).isSome
  · simp [hu]
  · have hnone : AuthService.get_user_by_username db data.username = none :=
      Option.not_isSome_iff_eq_none.mp hu
    simp only [AuthService.get_user_by_username] at hnone
    have hemail : w.email = data.email := by
      rcases hdup with h | h
      · exact absurd (by simp [h]) (List.find?_eq_none.mp hnone w hw)
      · exact h
    have he : (AuthService.get_user_by_email db data.email).isSome := by
      simp only [AuthService.get_user_by_email, List.find?_isSome]
      exact ⟨w, hw, by simp [hemail]⟩
    simp [hu, he]

/-- Concrete instantiation of the duplicate-registration conflict: a
registration reusing the username alice on the sample store. -/
theorem register_duplicate_conflict_witness :
    aliceU ∈ wDB.users ∧
    ((register wDB ⟨"alice", "fresh@example.com", "pw", none, 1⟩).1 = wDB ∧
      ((register wDB ⟨"alice", "fresh@example.com", "pw", none, 1⟩).2 =
          Except.error ⟨400, "Username already registered", []⟩ ∨
        (register wDB ⟨"alice", "fresh@example.com", "pw", none, 1⟩).2 =
          Except.error ⟨400, "Email already registered", []⟩)) :=
  ⟨by decide,
    register_duplicate_conflict wDB ⟨"alice", "fresh@example.com", "pw", none, 1⟩
      aliceU (by decide) (Or.inl rfl)⟩

/-- Claim C5: a token issued with a 30-minute expiry — as login and refresh
issue it — carries sub, user_id and org_id for its user and the expiry
instant issue-time + 30; presented for validation before that instant it
resolves to exactly the user it was issued for (hence to that user id and
organization id), and presented after that instant it fails with 401
Unauthenticated. -/
theorem token_expiry_resolution
    (db : DB) (u : User) (secret : String) (t now1 now2 : Nat)
    (hu : AuthService.get_user_by_username db u.username = some u)
    (ha : u.is_active = true)
    (hbefore : now1 < t + 30)
    (hafter : t + 30 < now2) :
    (create_access_token secret u.username u.id u.organization_id t 30).payload =
      ⟨u.username, u.id, u.organization_id, t + 30⟩ ∧
    get_current_user secret db
        (create_access_token secret u.username u.id u.organization_id t 30) now1 =
      Except.ok u ∧
    get_current_user secret db
        (create_access_token secret u.username u.id u.organization_id t 30) now2 =
      Except.error
        ⟨401, "Could not validate credentials", [("WWW-Authenticate", "Bearer")]⟩ := by
  refine ⟨rfl, ?_, ?_⟩
  · simp [get_current_user, create_access_token, hu, ha, Nat.not_le.mpr hbefore]
  · simp [get_current_user, create_access_token, Nat.le_of_lt hafter]

/-- Concrete instantiation of the token lifecycle: a token issued for aliceU
at tick 0 with lifetime 30, validated at tick 29 and at tick 31. -/
theorem token_expiry_resolution_witness :
    (29 < 0 + 30 ∧ 0 + 30 < 31) ∧
    ((create_access_token "key" aliceU.username aliceU.id aliceU.organization_id 0 30).payload =
        ⟨aliceU.username, aliceU.id, aliceU.organization_id, 0 + 30⟩ ∧
      get_current_user "key" wDB
          (create_access_token "key" aliceU.username aliceU.id aliceU.organization_id 0 30) 29 =
        Except.ok aliceU ∧
      get_current_user "key" wDB
          (create_access_token "key" aliceU.username aliceU.id aliceU.organization_id 0 30) 31 =
        Except.error
          ⟨401, "Could not validate credentials", [("WWW-Authenticate", "Bearer")]⟩) :=
  ⟨⟨by decide, by decide⟩,
    token_expiry_resolution wDB aliceU "key" 0 29 31 (by decide) rfl
      (by decide) (by decide)⟩

/-- Claim C8: listing conversations and listing the messages of an owned
conversation respect limit and offset: omitting both query parameters is the
same call as the defaults 50/0 (conversations) and 100/0 (messages), and any
offset at or beyond the number of available rows yields the empty list as a
successful, non-error response. -/
theorem pagination_defaults_and_offset_beyond
    (db : DB) (u : User) (conv : Conversation) (cid limit offset : Nat)
    (hconv : ChatService.get_conversation_by_id db cid u.id = some conv)
    (h1 : (db.conversations.filter (fun c => c.user_id == u.id)).length ≤ offset)
    (h2 : (db.messages.filter (fun m => m.conversation_id == cid)).length ≤ offset) :
    get_user_conversations db u none none = get_user_conversations db u (some 50) (some 0) ∧
    get_conversation_messages db cid u none none =
      get_conversation_messages db cid u (some 100) (some 0) ∧
    get_user_conversations db u (some limit) (some offset) = [] ∧
    get_conversation_messages db cid u (some limit) (some offset) = Except.ok [] := by
  refine ⟨rfl, rfl, ?_, ?_⟩
  · simp [get_user_conversations, ChatService.get_user_conversations,
      List.drop_eq_nil_of_le h1]
  · simp [get_conversation_messages, hconv, ChatService.get_conversation_messages,
      List.drop_eq_nil_of_le h2]

/-- Concrete instantiation of the pagination property: aliceU owns exactly one
conversation and it has no messages, so offset 1 is beyond both counts. -/
theorem pagination_defaults_and_offset_beyond_witness :
    ((wDB.conversations.filter (fun c => c.user_id == aliceU.id)).length ≤ 1 ∧
      (wDB.messages.filter (fun m => m.conversation_id == 1)).length ≤ 1) ∧
    (get_user_conversations wDB aliceU none none =
        get_user_conversations wDB aliceU (some 50) (some 0) ∧
      get_conversation_messages wDB 1 aliceU none none =
        get_conversation_messages wDB 1 aliceU (some 100) (some 0) ∧
      get_user_conversations wDB aliceU (some 5) (some 1) = [] ∧
      get_conversation_messages wDB 1 aliceU (some 5) (some 1) = Except.ok []) :=
  ⟨⟨by decide, by decide⟩,
    pagination_defaults_and_offset_beyond wDB aliceU convA 1 5 1 rfl
      (by decide) (by decide)⟩

/-- Claim C9: the health endpoint answers with the fixed body — status
healthy, the fixed service name and the fixed version — independent of
database availability, cache availability and any bearer token. -/
theorem health_check_fixed (db_available cache_available : Bool) (bearer : Option String) :
    health_check db_available cache_available bearer =
      ⟨"healthy", "olian-enterprise-llm", "1.0.0"⟩ :=
  rfl
